import Mathlib

/-!
# Smartband Alexa skill: session gate and shadow request protocol

A shallow embedding of `index.js`.  The two module-level variables
`currentUser` and `selectedThing` become an explicit `Session` that every
handler receives and returns.  The three external services (the DynamoDB
scan, `updateThingShadow`, `getThingShadow`) become an `Env` of outcomes that
the handler consults; every call a handler makes is recorded, in program
order, in a list of `Effect`s.  A rejected promise that no `try` catches
makes the handler finish with `Completion.threw`.  The built-in functions
`String.prototype.toLowerCase` and `parseInt` belong to the JavaScript
runtime and not to the repository: the handlers take them as a parameter,
`Builtins`, and the theorems hold for every value of it.
-/

set_option autoImplicit false

namespace SmartbandSkill

/-! ## JavaScript values -/

/-- The error object of a rejected promise or of a thrown exception. -/
abbrev JsError := String

/-- The scalar JavaScript values the handlers come across: the content of a
field of a parsed shadow document, the result of `parseInt`, and `undefined`
for a property that is not there.  A number is `num n` when it is the integer
`n`, `real text` when it is finite and not an integer (`text` is what
JavaScript prints for it, such as `36.6`), `infinity` or `nan` otherwise. -/
inductive JsVal where
  | undefined
  | null
  | bool (b : Bool)
  | num (n : Int)
  | real (text : String)
  | infinity (negative : Bool)
  | nan
  | str (s : String)
  deriving DecidableEq, Repr

/-- The truthiness test of `cond ? a : b` and of `!v`: among the numbers only
zero and `NaN` are falsy. -/
def JsVal.truthy : JsVal → Bool
  | .undefined => false
  | .null => false
  | .bool b => b
  | .num n => n != 0
  | .real _ => true
  | .infinity _ => true
  | .nan => false
  | .str s => s.data != []

/-- The text a template literal inserts for a value.  An integer is printed
with all its digits, which is what JavaScript does below `10^21`. -/
def JsVal.toStr : JsVal → String
  | .undefined => "undefined"
  | .null => "null"
  | .bool true => "true"
  | .bool false => "false"
  | .num n => toString n
  | .real text => text
  | .infinity false => "Infinity"
  | .infinity true => "-Infinity"
  | .nan => "NaN"
  | .str s => s

/-- What `JSON.stringify` writes for the value of a property: `NaN` and the
infinities become `null`. -/
def jsonStringifyValue : JsVal → JsVal
  | .nan => .null
  | .infinity _ => .null
  | v => v

/-- The built-in functions of the JavaScript runtime that the handlers call:
`toLowerCase` is `String.prototype.toLowerCase`, and `parseInt` is `parseInt`
with radix 10. -/
structure Builtins where
  toLowerCase : String → String
  parseInt : String → JsVal

/-! ## Data model -/

/-- The two module-level variables `currentUser` and `selectedThing`; `none`
is `null`. -/
structure Session where
  currentUser : Option String
  selectedThing : Option String
  deriving DecidableEq, Repr

/-- The truthiness of a variable that holds `null` or a string: `null` and
the empty string are both falsy. -/
def truthy : Option String → Bool
  | none => false
  | some s => s.data != []

/-- The module state when the code is loaded: both variables are `null`. -/
def initialSession : Session :=
  ⟨none, none⟩

/-- An item of the table `smartbands_user_thing`. -/
structure Item where
  user : String
  thing_nick : String
  serial_number : String
  deriving DecidableEq, Repr

/-- An element of the result of `getUserThings`. -/
structure Thing where
  thingNick : String
  serialNumber : String
  deriving DecidableEq, Repr

/-- The object `{ state: { desired: { [field]: value } } }` as it reaches the
store after `JSON.stringify`. -/
structure Payload where
  field : String
  value : JsVal
  deriving DecidableEq, Repr

/-- The property `state` of a parsed shadow document; `reported` is `none`
when the document has no such property. -/
structure ShadowState where
  reported : Option (List (String × JsVal))
  deriving DecidableEq, Repr

/-- The result of `JSON.parse(data.payload)`; `state` is `none` when the
document has no such property. -/
structure Shadow where
  state : Option ShadowState
  deriving DecidableEq, Repr

/-- The outcomes of the external calls of one handler invocation: `scan` is
the `Items` of `dynamoDb.scan(params).promise()`, `updateThingShadow` the
outcome of `updateShadowPromise`, `getThingShadow` the outcome of
`getShadowPromise` (the store call followed by `JSON.parse`); `.error` is a
rejected promise. -/
structure Env where
  scan : Except JsError (List Item)
  updateThingShadow : String → Payload → Except JsError Unit
  getThingShadow : String → Except JsError Shadow

/-- A call a handler makes to the outside, in the order it makes it. -/
inductive Effect where
  | scan (tableName : String)
  | updateThingShadow (thingName : String) (payload : Payload)
  | setTimeout (ms : Nat)
  | getThingShadow (thingName : String)
  | consoleError (label : String) (error : JsError)
  deriving DecidableEq, Repr

/-- The response object: the spoken text and the reprompt. -/
structure Response where
  speak : String
  reprompt : String
  deriving DecidableEq, Repr

/-- How an `async handle` ends: its promise resolves with a response or
rejects with an error. -/
inductive Completion where
  | returned (response : Response)
  | threw (error : JsError)
  deriving DecidableEq, Repr

/-- One handler invocation: the module state after it, how it ended, and the
outside calls it made. -/
structure Run where
  session : Session
  completion : Completion
  effects : List Effect
  deriving DecidableEq, Repr

/-! ## The program -/

/-- The constant `tableName`. -/
def tableName : String := "smartbands_user_thing"

/-- The function `getUserThings`: scan the table, keep the items of the user
(compared in lower case), project them to nickname and serial number. -/
def getUserThings (js : Builtins) (env : Env) (username : String) :
    Except JsError (List Thing) :=
  match env.scan with
  | .error e => .error e
  | .ok items =>
    .ok ((items.filter fun item => js.toLowerCase item.user == js.toLowerCase username).map
      fun item => ⟨item.thing_nick, item.serial_number⟩)

/-- The function `buildResponse`; every call site leaves `reprompt` to its
default, the spoken text. -/
def buildResponse (speakOutput : String) : Response :=
  ⟨speakOutput, speakOutput⟩

/-- The function `validateUserAndThing`; `none` is the `null` it returns when
the command may proceed. -/
def validateUserAndThing (s : Session) (validateThing : Bool) : Option Response :=
  if !truthy s.currentUser then
    some (buildResponse "Primero debes proporcionar tu nombre de usuario. Por favor, dime tu nombre.")
  else if validateThing && !truthy s.selectedThing then
    some (buildResponse "Primero debes seleccionar un dispositivo. Por favor, dime el nombre del dispositivo que deseas usar.")
  else
    none

/-- The method `LaunchRequestHandler.handle`. -/
def LaunchRequestHandler.handle (s : Session) : Run :=
  ⟨s, .returned (buildResponse "Bienvenido a tu banda inteligente. Por favor, dime tu nombre de usuario para empezar."), []⟩

/-- The method `CaptureUsernameIntentHandler.handle`; `slotValue` is
`slots.username.value`. -/
def CaptureUsernameIntentHandler.handle (js : Builtins) (s : Session) (env : Env)
    (slotValue : String) : Run :=
  let username := js.toLowerCase slotValue
  match getUserThings js env username with
  | .error e => ⟨s, .threw e, [.scan tableName]⟩
  | .ok userThings =>
    if userThings.length == 0 then
      ⟨s, .returned (buildResponse "No encontré dispositivos registrados para este usuario. Por favor, verifica tu nombre de usuario."), [.scan tableName]⟩
    else
      let thingsList := ", ".intercalate (userThings.map fun thing => thing.thingNick)
      ⟨{ s with currentUser := some username },
        .returned (buildResponse ("Hola " ++ username ++ ". Tienes registrados los siguientes dispositivos: " ++ thingsList ++ ". Por favor, dime el nombre del dispositivo que deseas usar.")),
        [.scan tableName]⟩

/-- The method `SelectThingIntentHandler.handle`; `slotValue` is
`slots.thingNick.value`.  Past the gate `currentUser` holds a string, so the
default of `getD` is never used. -/
def SelectThingIntentHandler.handle (js : Builtins) (s : Session) (env : Env)
    (slotValue : String) : Run :=
  match validateUserAndThing s false with
  | some errorResponse => ⟨s, .returned errorResponse, []⟩
  | none =>
    let thingNick := js.toLowerCase slotValue
    match getUserThings js env (s.currentUser.getD "") with
    | .error e => ⟨s, .threw e, [.scan tableName]⟩
    | .ok userThings =>
      match userThings.find? fun thing => js.toLowerCase thing.thingNick == thingNick with
      | none =>
        ⟨s, .returned (buildResponse ("No encontré un dispositivo llamado " ++ thingNick ++ ". Por favor, intenta nuevamente.")), [.scan tableName]⟩
      | some selected =>
        ⟨{ s with selectedThing := some selected.serialNumber },
          .returned (buildResponse ("Perfecto. Ahora estás usando el dispositivo " ++ thingNick ++ ". Puedes consultar tu ritmo cardíaco, SpO2, pasos, temperatura ambiente. ¿Qué deseas hacer?")),
          [.scan tableName]⟩

/-- The handler object that `createDataRequestHandler` returns, as its
`handle` method.  Past the gate `selectedThing` holds a string, so the default
of `getD` is never used.  The `try` block covers both store calls and the
property accesses on the parsed shadow, which throw a `TypeError` when
`state` or `reported` is missing. -/
def createDataRequestHandler (intentName dataField successMessage : String)
    (s : Session) (env : Env) : Run :=
  match validateUserAndThing s true with
  | some errorResponse => ⟨s, .returned errorResponse, []⟩
  | none =>
    let label := "Error en " ++ intentName ++ ":"
    let problem := buildResponse "Hubo un problema al procesar tu solicitud. Por favor, intenta nuevamente más tarde."
    let thingTopic := "smartband_" ++ s.selectedThing.getD ""
    let request : Payload := ⟨"data_requested", jsonStringifyValue (.num 1)⟩
    match env.updateThingShadow thingTopic request with
    | .error e =>
      ⟨s, .returned problem, [.updateThingShadow thingTopic request, .consoleError label e]⟩
    | .ok _ =>
      match env.getThingShadow thingTopic with
      | .error e =>
        ⟨s, .returned problem,
          [.updateThingShadow thingTopic request, .setTimeout 3000, .getThingShadow thingTopic,
            .consoleError label e]⟩
      | .ok shadow =>
        match shadow.state.bind fun state => state.reported with
        | none =>
          ⟨s, .returned problem,
            [.updateThingShadow thingTopic request, .setTimeout 3000, .getThingShadow thingTopic,
              .consoleError label "TypeError"]⟩
        | some reported =>
          let dataValue := (reported.lookup dataField).getD .undefined
          let speakOutput :=
            if dataValue.truthy then successMessage ++ ": " ++ dataValue.toStr ++ "."
            else "No se pudo obtener la información de " ++ dataField ++ ". Intenta nuevamente."
          ⟨s, .returned (buildResponse speakOutput),
            [.updateThingShadow thingTopic request, .setTimeout 3000, .getThingShadow thingTopic]⟩

/-- The handler `CheckHeartbeatIntentHandler`. -/
def CheckHeartbeatIntentHandler.handle : Session → Env → Run :=
  createDataRequestHandler "CheckHeartbeatIntent" "heart_rate" "El pulso es"

/-- The handler `CheckActivityIntentHandler`. -/
def CheckActivityIntentHandler.handle : Session → Env → Run :=
  createDataRequestHandler "CheckActivityIntent" "activity_type" "La actividad actual es"

/-- The handler `CheckTemperatureIntentHandler`. -/
def CheckTemperatureIntentHandler.handle : Session → Env → Run :=
  createDataRequestHandler "CheckTemperatureIntent" "enviroment_temperature"
    "La temperatura del entorno es"

/-- The handler `CheckSpO2IntentHandler`. -/
def CheckSpO2IntentHandler.handle : Session → Env → Run :=
  createDataRequestHandler "CheckSpOIntent" "SpO2" "El nivel de oxígeno en la sangre es"

/-- The handler `CheckStepsIntentHandler`. -/
def CheckStepsIntentHandler.handle : Session → Env → Run :=
  createDataRequestHandler "CheckStepsIntent" "steps" "El número de pasos es"

/-- The method `ChangeMinHeartbeatIntentHandler.handle`; `minPulse` is
`slots.minPulse.value`.  Past the gate `selectedThing` holds a string. -/
def ChangeMinHeartbeatIntentHandler.handle (js : Builtins) (s : Session) (env : Env)
    (minPulse : String) : Run :=
  match validateUserAndThing s true with
  | some errorResponse => ⟨s, .returned errorResponse, []⟩
  | none =>
    let thingTopic := "smartband_" ++ s.selectedThing.getD ""
    let payload : Payload := ⟨"min_pulse_alert", jsonStringifyValue (js.parseInt minPulse)⟩
    match env.updateThingShadow thingTopic payload with
    | .ok _ =>
      ⟨s, .returned (buildResponse ("El umbral mínimo de pulsaciones se ha establecido en " ++ minPulse ++ ".")),
        [.updateThingShadow thingTopic payload]⟩
    | .error e =>
      ⟨s, .returned (buildResponse "Hubo un problema al establecer el umbral mínimo. Por favor, intenta nuevamente más tarde."),
        [.updateThingShadow thingTopic payload, .consoleError "Error en ChangeMinHeartbeatIntent:" e]⟩

/-- The method `ChangeMaxHeartbeatIntentHandler.handle`; `maxPulse` is
`slots.maxPulse.value`.  Past the gate `selectedThing` holds a string. -/
def ChangeMaxHeartbeatIntentHandler.handle (js : Builtins) (s : Session) (env : Env)
    (maxPulse : String) : Run :=
  match validateUserAndThing s true with
  | some errorResponse => ⟨s, .returned errorResponse, []⟩
  | none =>
    let thingTopic := "smartband_" ++ s.selectedThing.getD ""
    let payload : Payload := ⟨"max_pulse_alert", jsonStringifyValue (js.parseInt maxPulse)⟩
    match env.updateThingShadow thingTopic payload with
    | .ok _ =>
      ⟨s, .returned (buildResponse ("El umbral máximo de pulsaciones se ha establecido en " ++ maxPulse ++ ".")),
        [.updateThingShadow thingTopic payload]⟩
    | .error e =>
      ⟨s, .returned (buildResponse "Hubo un problema al establecer el umbral máximo. Por favor, intenta nuevamente más tarde."),
        [.updateThingShadow thingTopic payload, .consoleError "Error en ChangeMaxHeartbeatIntent:" e]⟩

/-! ## Conversations -/

/-- A request the skill routes to one of its handlers, with the slot value
the handler reads. -/
inductive Request where
  | launch
  | captureUsername (username : String)
  | selectThing (thingNick : String)
  | checkHeartbeat
  | checkActivity
  | checkTemperature
  | checkSpO2
  | checkSteps
  | changeMinHeartbeat (minPulse : String)
  | changeMaxHeartbeat (maxPulse : String)
  deriving DecidableEq, Repr

/-- The routing of `addRequestHandlers`: each request goes to the handler
whose `canHandle` accepts it. -/
def handler (js : Builtins) (s : Session) (env : Env) : Request → Run
  | .launch => LaunchRequestHandler.handle s
  | .captureUsername username => CaptureUsernameIntentHandler.handle js s env username
  | .selectThing thingNick => SelectThingIntentHandler.handle js s env thingNick
  | .checkHeartbeat => CheckHeartbeatIntentHandler.handle s env
  | .checkActivity => CheckActivityIntentHandler.handle s env
  | .checkTemperature => CheckTemperatureIntentHandler.handle s env
  | .checkSpO2 => CheckSpO2IntentHandler.handle s env
  | .checkSteps => CheckStepsIntentHandler.handle s env
  | .changeMinHeartbeat minPulse => ChangeMinHeartbeatIntentHandler.handle js s env minPulse
  | .changeMaxHeartbeat maxPulse => ChangeMaxHeartbeatIntentHandler.handle js s env maxPulse

/-- The module state after a sequence of invocations, each with the outcomes
its external calls meet. -/
def runAll (js : Builtins) (s : Session) : List (Env × Request) → Session
  | [] => s
  | (env, request) :: rest => runAll js (handler js s env request).session rest

/-! ## The built-ins on the samples

The strings of the samples are ASCII. -/

/-- The method `String.prototype.toLowerCase` on a string of ASCII
characters: the letters `A` to `Z` are lower-cased. -/
def asciiToLowerCase (s : String) : String :=
  ⟨s.data.map Char.toLower⟩

/-- The white space that `parseInt` skips at the start of its argument. -/
def isStrWhiteSpace (c : Char) : Bool :=
  let n := c.toNat
  n == 0x09 || n == 0x0A || n == 0x0B || n == 0x0C || n == 0x0D || n == 0x20 ||
  n == 0xA0 || n == 0x1680 || (0x2000 ≤ n && n ≤ 0x200A) || n == 0x2028 ||
  n == 0x2029 || n == 0x202F || n == 0x205F || n == 0x3000 || n == 0xFEFF

/-- The value of a run of decimal digits, read left to right from `acc`. -/
def digitsValue (acc : Nat) : List Char → Nat
  | [] => acc
  | c :: cs => digitsValue (acc * 10 + (c.toNat - 48)) cs

/-- The number of binary digits of `n`, for a `fuel` of at least that
number. -/
def bitLength : Nat → Nat → Nat
  | 0, _ => 0
  | fuel + 1, n => if n = 0 then 0 else bitLength fuel (n / 2) + 1

/-- The double nearest to the natural number `n`: `n` itself below `2^53`,
else `n` rounded to 53 binary digits, a tie going to the even significand;
`none` when the rounded value does not fit the exponent range of a double. -/
def nearestDouble (n : Nat) : Option Nat :=
  if n < 2 ^ 53 then some n
  else
    let e := bitLength n n - 53
    let q := n / 2 ^ e
    let r := n % 2 ^ e
    let half := 2 ^ (e - 1)
    let q := if r > half || (r == half && q % 2 == 1) then q + 1 else q
    if bitLength q q + e ≤ 1024 then some (q * 2 ^ e) else none

/-- The function `parseInt(string, 10)`: skip leading white space, read an
optional sign, then the longest run of decimal digits; `NaN` when that run is
empty, else the double nearest to its value, an infinity when it is out of
range. -/
def parseInt (string : String) : JsVal :=
  let s := string.data.dropWhile isStrWhiteSpace
  let negative := s.head? == some '-'
  let s := if s.head? == some '+' || s.head? == some '-' then s.tail else s
  let z := s.takeWhile Char.isDigit
  if z.isEmpty then .nan
  else
    match nearestDouble (digitsValue 0 z) with
    | none => .infinity negative
    | some m => if negative then .num (-(m : Int)) else .num (m : Int)

/-- The built-in functions for the samples. -/
def sampleBuiltins : Builtins :=
  ⟨asciiToLowerCase, parseInt⟩

/-! ## Sample data -/

/-- A table with two bands of one user and one band of another. -/
def sampleItems : List Item :=
  [⟨"Alice", "Band1", "SN-001"⟩, ⟨"alice", "band2", "SN-002"⟩, ⟨"Bob", "band9", "SN-900"⟩]

/-- An environment in which every call succeeds and the device reports a
heart rate of 72 and 0 steps. -/
def sampleEnv : Env where
  scan := .ok sampleItems
  updateThingShadow := fun _ _ => .ok ()
  getThingShadow := fun _ => .ok ⟨some ⟨some [("heart_rate", .num 72), ("steps", .num 0)]⟩⟩

/-- An environment in which every call succeeds and the device has
reported the given document. -/
def reportingEnv (reported : List (String × JsVal)) : Env where
  scan := .ok sampleItems
  updateThingShadow := fun _ _ => .ok ()
  getThingShadow := fun _ => .ok ⟨some ⟨some reported⟩⟩

/-- An environment in which every call succeeds and the device has not
reported yet: the shadow has a `state` without a `reported` section. -/
def unreportedEnv : Env where
  scan := .ok sampleItems
  updateThingShadow := fun _ _ => .ok ()
  getThingShadow := fun _ => .ok ⟨some ⟨none⟩⟩

/-- An environment in which every external call fails. -/
def failingEnv : Env where
  scan := .error "ServiceUnavailable"
  updateThingShadow := fun _ _ => .error "ServiceUnavailable"
  getThingShadow := fun _ => .error "ServiceUnavailable"

/-! ## Outcome vocabulary

The spoken texts, under the names the specification gives to the outcomes. -/

/-- The `NoIdentity` rejection of the gate. -/
def noIdentity : Response :=
  buildResponse "Primero debes proporcionar tu nombre de usuario. Por favor, dime tu nombre."

/-- The `NoDevice` rejection of the gate. -/
def noDevice : Response :=
  buildResponse "Primero debes seleccionar un dispositivo. Por favor, dime el nombre del dispositivo que deseas usar."

/-- The `NoSuchUser` outcome of identification. -/
def noSuchUser : Response :=
  buildResponse "No encontré dispositivos registrados para este usuario. Por favor, verifica tu nombre de usuario."

/-- The `NoSuchDevice` outcome of device selection, for the lower-cased
nickname. -/
def noSuchDevice (thingNick : String) : Response :=
  buildResponse ("No encontré un dispositivo llamado " ++ thingNick ++ ". Por favor, intenta nuevamente.")

/-- The success outcome of device selection, for the lower-cased nickname. -/
def deviceSelected (thingNick : String) : Response :=
  buildResponse ("Perfecto. Ahora estás usando el dispositivo " ++ thingNick ++ ". Puedes consultar tu ritmo cardíaco, SpO2, pasos, temperatura ambiente. ¿Qué deseas hacer?")

/-- The success outcome of a read: the success text followed by the value. -/
def fieldValue (successMessage : String) (dataValue : JsVal) : Response :=
  buildResponse (successMessage ++ ": " ++ dataValue.toStr ++ ".")

/-- The `FieldUnavailable` outcome of a read, the soft miss. -/
def fieldUnavailable (dataField : String) : Response :=
  buildResponse ("No se pudo obtener la información de " ++ dataField ++ ". Intenta nuevamente.")

/-- The `Failed` outcome of a read. -/
def failed : Response :=
  buildResponse "Hubo un problema al procesar tu solicitud. Por favor, intenta nuevamente más tarde."

/-- The desired-state document a read writes to ask for a fresh report. -/
def dataRequest : Payload :=
  ⟨"data_requested", .num 1⟩

/-- The success outcome of `ChangeMinHeartbeatIntent`, which repeats the slot
value. -/
def minThresholdSet (minPulse : String) : Response :=
  buildResponse ("El umbral mínimo de pulsaciones se ha establecido en " ++ minPulse ++ ".")

/-- The success outcome of `ChangeMaxHeartbeatIntent`, which repeats the slot
value. -/
def maxThresholdSet (maxPulse : String) : Response :=
  buildResponse ("El umbral máximo de pulsaciones se ha establecido en " ++ maxPulse ++ ".")

/-- The `Failed` outcome of `ChangeMinHeartbeatIntent`. -/
def minThresholdFailed : Response :=
  buildResponse "Hubo un problema al establecer el umbral mínimo. Por favor, intenta nuevamente más tarde."

/-- The `Failed` outcome of `ChangeMaxHeartbeatIntent`. -/
def maxThresholdFailed : Response :=
  buildResponse "Hubo un problema al establecer el umbral máximo. Por favor, intenta nuevamente más tarde."

/-- The property of a session that the invocations keep: a set
`selectedThing` comes with a set `currentUser`; with `strict` the user is
moreover not the empty string. -/
def bound (strict : Bool) (s : Session) : Prop :=
  s.selectedThing ≠ none → s.currentUser ≠ none ∧ (strict = true → truthy s.currentUser = true)

/-! ## The built-ins on the samples, checked -/

theorem asciiToLowerCase_samples :
    asciiToLowerCase "ALICE" = "alice" ∧ asciiToLowerCase "Band1" = "band1" ∧
    asciiToLowerCase "band1" = "band1" := by
  decide

theorem parseInt_samples :
    parseInt "abc" = .nan ∧ parseInt "12abc" = .num 12 ∧ parseInt " -42px" = .num (-42) ∧
    parseInt "60" = .num 60 ∧
    parseInt "9007199254740993" = .num 9007199254740992 ∧
    parseInt "18014398509481985" = .num 18014398509481984 := by
  decide

set_option maxRecDepth 100000 in
set_option exponentiation.threshold 2000 in
theorem parseInt_out_of_range :
    parseInt ("1" ++ String.mk (List.replicate 309 '0')) = .infinity false ∧
    jsonStringifyValue (parseInt ("1" ++ String.mk (List.replicate 309 '0'))) = .null := by
  decide

/-! ## Telling spoken texts apart -/

theorem head_append (p x : String) (c : Char) (hp : p.data.head? = some c) :
    (p ++ x).data.head? = some c := by
  cases hd : p.data with
  | nil => simp [hd] at hp
  | cons a l =>
    rw [hd] at hp
    simp [String.data_append, hd] at hp ⊢
    exact hp

theorem ne_of_head (a b : String) (c d : Char) (ha : a.data.head? = some c)
    (hb : b.data.head? = some d) (hcd : c ≠ d) : a ≠ b := by
  rintro rfl
  rw [ha] at hb
  exact hcd (Option.some.inj hb)

theorem buildResponse_ne (a b : String) (h : a ≠ b) : buildResponse a ≠ buildResponse b := by
  intro hab
  exact h (congrArg Response.speak hab)

theorem noSuchDevice_ne_deviceSelected (a b : String) : noSuchDevice a ≠ deviceSelected b := by
  apply buildResponse_ne
  exact ne_of_head _ _ 'N' 'P' (head_append _ _ _ (head_append _ _ _ rfl))
    (head_append _ _ _ (head_append _ _ _ rfl)) (by decide)

/-! ## The gate -/

theorem gate_unset_user (s : Session) (validateThing : Bool)
    (h : truthy s.currentUser = false) :
    validateUserAndThing s validateThing = some noIdentity := by
  simp [validateUserAndThing, h, noIdentity]

theorem gate_pass_iff (s : Session) (validateThing : Bool) :
    validateUserAndThing s validateThing = none ↔
      truthy s.currentUser = true ∧ (validateThing = true → truthy s.selectedThing = true) := by
  unfold validateUserAndThing
  cases hu : truthy s.currentUser <;> cases validateThing <;>
    cases ht : truthy s.selectedThing <;> simp

theorem truthy_ne_none {v : Option String} (h : truthy v = true) : v ≠ none := by
  rintro rfl
  simp [truthy] at h

/-- C1: the gate `validateUserAndThing` answers `NoIdentity` whenever
`currentUser` is unset (it holds `null`, or the empty string, which `!` treats
alike), whatever `validateThing` and `selectedThing` are; otherwise it answers
`NoDevice` when `validateThing` is true and `selectedThing` is unset;
otherwise it returns `null`.  With both variables `null` and `validateThing`
true the answer is `NoIdentity`, which is a different response from
`NoDevice`. -/
theorem validateUserAndThing_priority (s : Session) (validateThing : Bool) :
    (truthy s.currentUser = false →
      validateUserAndThing s validateThing = some noIdentity) ∧
    (truthy s.currentUser = true → validateThing = true → truthy s.selectedThing = false →
      validateUserAndThing s validateThing = some noDevice) ∧
    (truthy s.currentUser = true → (validateThing = false ∨ truthy s.selectedThing = true) →
      validateUserAndThing s validateThing = none) ∧
    (s.currentUser = none → validateUserAndThing s validateThing = some noIdentity) ∧
    validateUserAndThing ⟨none, none⟩ true = some noIdentity ∧
    noIdentity ≠ noDevice := by
  refine ⟨gate_unset_user s validateThing, ?_, ?_, ?_, ?_, ?_⟩
  · intro hu hv ht
    simp [validateUserAndThing, hu, hv, ht, noDevice]
  · intro hu h
    rw [gate_pass_iff]
    refine ⟨hu, fun hv => ?_⟩
    rcases h with h | h
    · simp [hv] at h
    · exact h
  · intro hu
    exact gate_unset_user s validateThing (by simp [hu, truthy])
  · decide
  · decide

/-- C1, at a session with a user and no device, asked with `validateThing`. -/
theorem validateUserAndThing_priority_witness :
    validateUserAndThing ⟨some "alice", none⟩ true = some noDevice ∧
    validateUserAndThing ⟨none, some "SN-001"⟩ false = some noIdentity ∧
    validateUserAndThing ⟨some "alice", some "SN-001"⟩ true = none :=
  ⟨(validateUserAndThing_priority ⟨some "alice", none⟩ true).2.1 (by decide) rfl (by decide),
    (validateUserAndThing_priority ⟨none, some "SN-001"⟩ false).1 (by decide),
    (validateUserAndThing_priority ⟨some "alice", some "SN-001"⟩ true).2.2.1 (by decide)
      (Or.inr (by decide))⟩

/-! ## Handlers that leave the session alone -/

theorem createDataRequestHandler_session (intentName dataField successMessage : String)
    (s : Session) (env : Env) :
    (createDataRequestHandler intentName dataField successMessage s env).session = s := by
  unfold createDataRequestHandler
  repeat' first | rfl | split | dsimp only

theorem changeMin_session (js : Builtins) (s : Session) (env : Env) (v : String) :
    (ChangeMinHeartbeatIntentHandler.handle js s env v).session = s := by
  unfold ChangeMinHeartbeatIntentHandler.handle
  repeat' first | rfl | split | dsimp only

theorem changeMax_session (js : Builtins) (s : Session) (env : Env) (v : String) :
    (ChangeMaxHeartbeatIntentHandler.handle js s env v).session = s := by
  unfold ChangeMaxHeartbeatIntentHandler.handle
  repeat' first | rfl | split | dsimp only

/-! ## Identification -/

theorem captureUsername_error (js : Builtins) (s : Session) (env : Env) (slotValue : String)
    (e : JsError)
    (h : getUserThings js env (js.toLowerCase slotValue) = .error e) :
    CaptureUsernameIntentHandler.handle js s env slotValue = ⟨s, .threw e, [.scan tableName]⟩ := by
  simp [CaptureUsernameIntentHandler.handle, h]

theorem captureUsername_empty (js : Builtins) (s : Session) (env : Env) (slotValue : String)
    (h : getUserThings js env (js.toLowerCase slotValue) = .ok []) :
    CaptureUsernameIntentHandler.handle js s env slotValue =
      ⟨s, .returned (buildResponse "No encontré dispositivos registrados para este usuario. Por favor, verifica tu nombre de usuario."),
        [.scan tableName]⟩ := by
  simp [CaptureUsernameIntentHandler.handle, h]

theorem captureUsername_found (js : Builtins) (s : Session) (env : Env) (slotValue : String)
    (t : Thing) (ts : List Thing)
    (h : getUserThings js env (js.toLowerCase slotValue) = .ok (t :: ts)) :
    (CaptureUsernameIntentHandler.handle js s env slotValue).session =
      ⟨some (js.toLowerCase slotValue), s.selectedThing⟩ := by
  simp [CaptureUsernameIntentHandler.handle, h]

theorem captureUsername_session (js : Builtins) (s : Session) (env : Env) (slotValue : String) :
    (CaptureUsernameIntentHandler.handle js s env slotValue).session = s ∨
    (CaptureUsernameIntentHandler.handle js s env slotValue).session =
      ⟨some (js.toLowerCase slotValue), s.selectedThing⟩ := by
  cases h : getUserThings js env (js.toLowerCase slotValue) with
  | error e => left; rw [captureUsername_error js s env slotValue e h]
  | ok things =>
    cases things with
    | nil => left; rw [captureUsername_empty js s env slotValue h]
    | cons t ts => right; exact captureUsername_found js s env slotValue t ts h

/-- C3: when the lookup for the lower-cased user id finds no device,
`CaptureUsernameIntentHandler.handle` answers `NoSuchUser` and returns the
session it received, and so does any number of repetitions of the call; when
the lookup finds at least one device, `currentUser` becomes the lower-cased
user id. -/
theorem captureUsername_commits_only_on_devices (js : Builtins) (s : Session) (env : Env)
    (slotValue : String) :
    (getUserThings js env (js.toLowerCase slotValue) = .ok [] →
      (CaptureUsernameIntentHandler.handle js s env slotValue).session = s ∧
      (CaptureUsernameIntentHandler.handle js s env slotValue).completion = .returned noSuchUser ∧
      ∀ n : Nat, runAll js s (List.replicate n (env, .captureUsername slotValue)) = s) ∧
    (∀ t ts, getUserThings js env (js.toLowerCase slotValue) = .ok (t :: ts) →
      (CaptureUsernameIntentHandler.handle js s env slotValue).session.currentUser =
        some (js.toLowerCase slotValue)) := by
  refine ⟨fun h => ?_, fun t ts h => ?_⟩
  · have hrun := captureUsername_empty js s env slotValue h
    refine ⟨by rw [hrun], by rw [hrun]; rfl, fun n => ?_⟩
    induction n with
    | zero => rfl
    | succ n ih =>
      rw [List.replicate_succ]
      show runAll js (CaptureUsernameIntentHandler.handle js s env slotValue).session _ = s
      rw [hrun]
      exact ih
  · rw [captureUsername_found js s env slotValue t ts h]

/-- C3, for a user the sample table does not know and for one it knows. -/
theorem captureUsername_commits_only_on_devices_witness :
    runAll sampleBuiltins ⟨some "alice", some "SN-001"⟩ (List.replicate 3 (sampleEnv, .captureUsername "Carol")) =
      ⟨some "alice", some "SN-001"⟩ ∧
    (CaptureUsernameIntentHandler.handle sampleBuiltins initialSession sampleEnv "ALICE").session.currentUser =
      some (sampleBuiltins.toLowerCase "ALICE") :=
  ⟨((captureUsername_commits_only_on_devices sampleBuiltins ⟨some "alice", some "SN-001"⟩ sampleEnv "Carol").1
      rfl).2.2 3,
    (captureUsername_commits_only_on_devices sampleBuiltins initialSession sampleEnv "ALICE").2
      ⟨"Band1", "SN-001"⟩ [⟨"band2", "SN-002"⟩] rfl⟩

/-- C10, as the code has it: a call of `CaptureUsernameIntentHandler.handle`
that finds at least one device sets `currentUser` to the lower-cased user id
and leaves `selectedThing` as it was, whether or not the user id differs from
the one the session had. -/
theorem captureUsername_keeps_selectedThing (js : Builtins) (s : Session) (env : Env)
    (slotValue : String)
    (t : Thing) (ts : List Thing)
    (h : getUserThings js env (js.toLowerCase slotValue) = .ok (t :: ts)) :
    (CaptureUsernameIntentHandler.handle js s env slotValue).session.currentUser =
      some (js.toLowerCase slotValue) ∧
    (CaptureUsernameIntentHandler.handle js s env slotValue).session.selectedThing =
      s.selectedThing := by
  rw [captureUsername_found js s env slotValue t ts h]
  exact ⟨rfl, rfl⟩

/-- C10, as the code has it, for a session of `alice` that turns to `bob`. -/
theorem captureUsername_keeps_selectedThing_witness :
    (CaptureUsernameIntentHandler.handle sampleBuiltins ⟨some "alice", some "SN-001"⟩ sampleEnv "Bob").session.currentUser =
      some (sampleBuiltins.toLowerCase "Bob") ∧
    (CaptureUsernameIntentHandler.handle sampleBuiltins ⟨some "alice", some "SN-001"⟩ sampleEnv "Bob").session.selectedThing =
      some "SN-001" :=
  captureUsername_keeps_selectedThing sampleBuiltins ⟨some "alice", some "SN-001"⟩ sampleEnv "Bob"
    ⟨"band9", "SN-900"⟩ [] rfl

/-- C10 fails: the session of `alice` bound to `SN-001` identifies as `bob`,
a different user who owns a device; afterwards `currentUser` is `bob` and
`selectedThing` is still `SN-001`, not `null`. -/
theorem captureUsername_does_not_clear_selectedThing :
    sampleBuiltins.toLowerCase "alice" ≠ sampleBuiltins.toLowerCase "Bob" ∧
    (CaptureUsernameIntentHandler.handle sampleBuiltins ⟨some "alice", some "SN-001"⟩ sampleEnv "Bob").session =
      ⟨some "bob", some "SN-001"⟩ ∧
    (CaptureUsernameIntentHandler.handle sampleBuiltins ⟨some "alice", some "SN-001"⟩ sampleEnv "Bob").session.selectedThing ≠
      none := by
  decide

/-! ## Device selection -/

theorem selectThing_rejected (js : Builtins) (s : Session) (env : Env) (slotValue : String)
    (r : Response)
    (h : validateUserAndThing s false = some r) :
    SelectThingIntentHandler.handle js s env slotValue = ⟨s, .returned r, []⟩ := by
  simp [SelectThingIntentHandler.handle, h]

theorem selectThing_error (js : Builtins) (s : Session) (env : Env) (slotValue : String)
    (e : JsError)
    (hg : validateUserAndThing s false = none)
    (h : getUserThings js env (s.currentUser.getD "") = .error e) :
    SelectThingIntentHandler.handle js s env slotValue = ⟨s, .threw e, [.scan tableName]⟩ := by
  simp [SelectThingIntentHandler.handle, hg, h]

theorem selectThing_none (js : Builtins) (s : Session) (env : Env) (slotValue : String)
    (things : List Thing)
    (hg : validateUserAndThing s false = none)
    (h : getUserThings js env (s.currentUser.getD "") = .ok things)
    (hf : (things.find? fun thing => js.toLowerCase thing.thingNick == js.toLowerCase slotValue) = none) :
    SelectThingIntentHandler.handle js s env slotValue =
      ⟨s, .returned (noSuchDevice (js.toLowerCase slotValue)), [.scan tableName]⟩ := by
  simp only [SelectThingIntentHandler.handle, hg, h, hf, noSuchDevice]

theorem selectThing_some (js : Builtins) (s : Session) (env : Env) (slotValue : String)
    (things : List Thing)
    (selected : Thing)
    (hg : validateUserAndThing s false = none)
    (h : getUserThings js env (s.currentUser.getD "") = .ok things)
    (hf : (things.find? fun thing => js.toLowerCase thing.thingNick == js.toLowerCase slotValue) =
      some selected) :
    SelectThingIntentHandler.handle js s env slotValue =
      ⟨⟨s.currentUser, some selected.serialNumber⟩,
        .returned (deviceSelected (js.toLowerCase slotValue)), [.scan tableName]⟩ := by
  simp only [SelectThingIntentHandler.handle, hg, h, hf, deviceSelected]

theorem selectThing_session (js : Builtins) (s : Session) (env : Env) (slotValue : String) :
    (SelectThingIntentHandler.handle js s env slotValue).session = s ∨
    (truthy s.currentUser = true ∧
      ∃ d, (SelectThingIntentHandler.handle js s env slotValue).session = ⟨s.currentUser, some d⟩) := by
  cases hg : validateUserAndThing s false with
  | some r => left; rw [selectThing_rejected js s env slotValue r hg]
  | none =>
    cases h : getUserThings js env (s.currentUser.getD "") with
    | error e => left; rw [selectThing_error js s env slotValue e hg h]
    | ok things =>
      cases hf : things.find? fun thing => js.toLowerCase thing.thingNick == js.toLowerCase slotValue with
      | none => left; rw [selectThing_none js s env slotValue things hg h hf]
      | some selected =>
        right
        refine ⟨((gate_pass_iff s false).1 hg).1, selected.serialNumber, ?_⟩
        rw [selectThing_some js s env slotValue things selected hg h hf]

/-- C4: in a session whose `currentUser` is set, with `things` the device
list the catalog returns for it, `SelectThingIntentHandler.handle` answers
with the success text exactly when some entry has the nickname of the slot
value up to letter case; `selectedThing` then becomes the serial number of the
first such entry; when no entry matches, the answer is `NoSuchDevice` and the
session is returned as it was; and two slot values that agree up to letter
case give the same run. -/
theorem selectThing_matches_ignoring_case (js : Builtins) (s : Session) (env : Env) (u : String)
    (things : List Thing) (slotValue : String)
    (hu : s.currentUser = some u) (hset : truthy (some u) = true)
    (hcat : getUserThings js env u = .ok things) :
    ((SelectThingIntentHandler.handle js s env slotValue).completion =
        .returned (deviceSelected (js.toLowerCase slotValue)) ↔
      ∃ t ∈ things, js.toLowerCase t.thingNick = js.toLowerCase slotValue) ∧
    (∀ pre t post, things = pre ++ t :: post →
      (∀ x ∈ pre, js.toLowerCase x.thingNick ≠ js.toLowerCase slotValue) →
      js.toLowerCase t.thingNick = js.toLowerCase slotValue →
      (SelectThingIntentHandler.handle js s env slotValue).session = ⟨some u, some t.serialNumber⟩) ∧
    ((∀ t ∈ things, js.toLowerCase t.thingNick ≠ js.toLowerCase slotValue) →
      (SelectThingIntentHandler.handle js s env slotValue).session = s ∧
      (SelectThingIntentHandler.handle js s env slotValue).completion =
        .returned (noSuchDevice (js.toLowerCase slotValue))) ∧
    (∀ other, js.toLowerCase other = js.toLowerCase slotValue →
      SelectThingIntentHandler.handle js s env other = SelectThingIntentHandler.handle js s env slotValue) := by
  have hg : validateUserAndThing s false = none :=
    (gate_pass_iff s false).2 ⟨by rw [hu]; exact hset, fun h => by simp at h⟩
  have hcat' : getUserThings js env (s.currentUser.getD "") = .ok things := by
    rw [hu]; exact hcat
  have hmiss : (∀ t ∈ things, js.toLowerCase t.thingNick ≠ js.toLowerCase slotValue) →
      SelectThingIntentHandler.handle js s env slotValue =
        ⟨s, .returned (noSuchDevice (js.toLowerCase slotValue)), [.scan tableName]⟩ := by
    intro hno
    apply selectThing_none js s env slotValue things hg hcat'
    rw [List.find?_eq_none]
    intro x hx
    simpa using hno x hx
  have hhit : ∀ pre t post, things = pre ++ t :: post →
      (∀ x ∈ pre, js.toLowerCase x.thingNick ≠ js.toLowerCase slotValue) →
      js.toLowerCase t.thingNick = js.toLowerCase slotValue →
      SelectThingIntentHandler.handle js s env slotValue =
        ⟨⟨some u, some t.serialNumber⟩, .returned (deviceSelected (js.toLowerCase slotValue)),
          [.scan tableName]⟩ := by
    intro pre t post hsplit hpre ht
    rw [selectThing_some js s env slotValue things t hg hcat', hu]
    rw [List.find?_eq_some]
    refine ⟨by simpa using ht, pre, post, hsplit, fun a ha => ?_⟩
    simpa using hpre a ha
  refine ⟨⟨fun hc => ?_, fun hex => ?_⟩, fun pre t post h1 h2 h3 => ?_, fun hno => ?_, fun other ho => ?_⟩
  · by_contra hne
    have hno : ∀ t ∈ things, js.toLowerCase t.thingNick ≠ js.toLowerCase slotValue :=
      fun t ht heq => hne ⟨t, ht, heq⟩
    rw [hmiss hno] at hc
    exact noSuchDevice_ne_deviceSelected _ _ (Completion.returned.inj hc)
  · obtain ⟨t, ht, heq⟩ := hex
    cases hf : things.find? fun thing => js.toLowerCase thing.thingNick == js.toLowerCase slotValue with
    | none =>
      rw [List.find?_eq_none] at hf
      exact absurd (by simpa using heq) (hf t ht)
    | some selected => rw [selectThing_some js s env slotValue things selected hg hcat' hf]
  · rw [hhit pre t post h1 h2 h3]
  · rw [hmiss hno]
    exact ⟨rfl, rfl⟩
  · simp only [SelectThingIntentHandler.handle, ho]

/-- C4, for the nicknames `Band1` and `band1` against the sample table. -/
theorem selectThing_matches_ignoring_case_witness :
    (SelectThingIntentHandler.handle sampleBuiltins ⟨some "alice", none⟩ sampleEnv "band1").session =
      ⟨some "alice", some "SN-001"⟩ ∧
    SelectThingIntentHandler.handle sampleBuiltins ⟨some "alice", none⟩ sampleEnv "Band1" =
      SelectThingIntentHandler.handle sampleBuiltins ⟨some "alice", none⟩ sampleEnv "band1" ∧
    (SelectThingIntentHandler.handle sampleBuiltins ⟨some "alice", some "SN-001"⟩ sampleEnv "bandX").session =
      ⟨some "alice", some "SN-001"⟩ :=
  ⟨(selectThing_matches_ignoring_case sampleBuiltins ⟨some "alice", none⟩ sampleEnv "alice"
      [⟨"Band1", "SN-001"⟩, ⟨"band2", "SN-002"⟩] "band1" rfl (by decide) rfl).2.1
      [] ⟨"Band1", "SN-001"⟩ [⟨"band2", "SN-002"⟩] rfl (by simp) (by decide),
    (selectThing_matches_ignoring_case sampleBuiltins ⟨some "alice", none⟩ sampleEnv "alice"
      [⟨"Band1", "SN-001"⟩, ⟨"band2", "SN-002"⟩] "band1" rfl (by decide) rfl).2.2.2
      "Band1" (by decide),
    ((selectThing_matches_ignoring_case sampleBuiltins ⟨some "alice", some "SN-001"⟩ sampleEnv "alice"
      [⟨"Band1", "SN-001"⟩, ⟨"band2", "SN-002"⟩] "bandX" rfl (by decide) rfl).2.2.1
      (by decide)).1⟩

/-! ## The session invariant -/

theorem truthy_of_ne_empty (u : String) (h : u ≠ "") : truthy (some u) = true := by
  have hd : u.data ≠ [] := fun hnil => h (String.ext hnil)
  simp [truthy, hd]

theorem handler_preserves (js : Builtins) (strict : Bool) (s : Session) (env : Env)
    (request : Request)
    (hreq : strict = true → ∀ u, request = .captureUsername u → js.toLowerCase u ≠ "")
    (h : bound strict s) : bound strict (handler js s env request).session := by
  cases request with
  | launch => exact h
  | captureUsername username =>
    show bound strict (CaptureUsernameIntentHandler.handle js s env username).session
    rcases captureUsername_session js s env username with hs | hs <;> rw [hs]
    · exact h
    · intro _
      exact ⟨by simp, fun hstrict => truthy_of_ne_empty _ (hreq hstrict username rfl)⟩
  | selectThing thingNick =>
    show bound strict (SelectThingIntentHandler.handle js s env thingNick).session
    rcases selectThing_session js s env thingNick with hs | ⟨hu, d, hs⟩ <;> rw [hs]
    · exact h
    · intro _; exact ⟨truthy_ne_none hu, fun _ => hu⟩
  | checkHeartbeat => exact (createDataRequestHandler_session _ _ _ s env).symm ▸ h
  | checkActivity => exact (createDataRequestHandler_session _ _ _ s env).symm ▸ h
  | checkTemperature => exact (createDataRequestHandler_session _ _ _ s env).symm ▸ h
  | checkSpO2 => exact (createDataRequestHandler_session _ _ _ s env).symm ▸ h
  | checkSteps => exact (createDataRequestHandler_session _ _ _ s env).symm ▸ h
  | changeMinHeartbeat v => exact (changeMin_session js s env v).symm ▸ h
  | changeMaxHeartbeat v => exact (changeMax_session js s env v).symm ▸ h

theorem runAll_preserves (js : Builtins) (strict : Bool) (inputs : List (Env × Request)) :
    ∀ s : Session,
      (strict = true →
        ∀ env u, (env, Request.captureUsername u) ∈ inputs → js.toLowerCase u ≠ "") →
      bound strict s → bound strict (runAll js s inputs) := by
  induction inputs with
  | nil => intro s _ h; exact h
  | cons input rest ih =>
    intro s hreq h
    obtain ⟨env, request⟩ := input
    refine ih (handler js s env request).session
      (fun hstrict env' u hmem => hreq hstrict env' u (List.mem_cons_of_mem _ hmem))
      (handler_preserves js strict s env request (fun hstrict u hu => ?_) h)
    exact hreq hstrict env u (by rw [hu]; exact List.mem_cons_self _ _)

/-- C2: in the session that any sequence of handler invocations, with any
outcomes of the catalog and store calls, reaches from the initial state (both
variables `null`), `selectedThing` is not set while `currentUser` is `null`;
and when no identification in the sequence carries a user name that
lower-cases to the empty string, `selectedThing` is not set either while
`currentUser` is the empty string, the other value the gate takes for
unset. -/
theorem selectedThing_never_without_currentUser (js : Builtins)
    (inputs : List (Env × Request)) :
    ((runAll js initialSession inputs).selectedThing ≠ none →
      (runAll js initialSession inputs).currentUser ≠ none) ∧
    ((∀ env u, (env, Request.captureUsername u) ∈ inputs → js.toLowerCase u ≠ "") →
      (runAll js initialSession inputs).selectedThing ≠ none →
      truthy (runAll js initialSession inputs).currentUser = true) :=
  ⟨fun hsel =>
      (runAll_preserves js false inputs initialSession (fun h => absurd h (by decide))
        (fun h => absurd rfl h) hsel).1,
    fun hreq hsel =>
      (runAll_preserves js true inputs initialSession (fun _ => hreq)
        (fun h => absurd rfl h) hsel).2 rfl⟩

/-- C2, after an identification and a selection that both succeed. -/
theorem selectedThing_never_without_currentUser_witness :
    (runAll sampleBuiltins initialSession
      [(sampleEnv, .captureUsername "ALICE"), (sampleEnv, .selectThing "BAND1")]).currentUser ≠
        none ∧
    truthy (runAll sampleBuiltins initialSession
      [(sampleEnv, .captureUsername "ALICE"), (sampleEnv, .selectThing "BAND1")]).currentUser =
        true :=
  ⟨(selectedThing_never_without_currentUser sampleBuiltins
      [(sampleEnv, .captureUsername "ALICE"), (sampleEnv, .selectThing "BAND1")]).1 (by decide),
    (selectedThing_never_without_currentUser sampleBuiltins
      [(sampleEnv, .captureUsername "ALICE"), (sampleEnv, .selectThing "BAND1")]).2
      (by
        intro env u hmem
        simp only [List.mem_cons, Prod.mk.injEq, Request.captureUsername.injEq, List.mem_singleton,
          reduceCtorEq, and_false, or_false, List.mem_nil_iff] at hmem
        rw [hmem.2]
        decide)
      (by decide)⟩

/-! ## Reads -/

theorem dataRequest_rejected (intentName dataField successMessage : String) (s : Session)
    (env : Env) (r : Response) (hg : validateUserAndThing s true = some r) :
    createDataRequestHandler intentName dataField successMessage s env =
      ⟨s, .returned r, []⟩ := by
  simp [createDataRequestHandler, hg]

theorem dataRequest_write_error (intentName dataField successMessage : String) (s : Session)
    (env : Env) (d : String) (e : JsError)
    (hg : validateUserAndThing s true = none) (hd : s.selectedThing = some d)
    (hw : env.updateThingShadow ("smartband_" ++ d) dataRequest = .error e) :
    createDataRequestHandler intentName dataField successMessage s env =
      ⟨s, .returned failed,
        [.updateThingShadow ("smartband_" ++ d) dataRequest,
          .consoleError ("Error en " ++ intentName ++ ":") e]⟩ := by
  simp only [dataRequest] at hw
  simp [createDataRequestHandler, hg, hd, jsonStringifyValue, hw, failed, dataRequest]

theorem dataRequest_read_error (intentName dataField successMessage : String) (s : Session)
    (env : Env) (d : String) (e : JsError)
    (hg : validateUserAndThing s true = none) (hd : s.selectedThing = some d)
    (hw : env.updateThingShadow ("smartband_" ++ d) dataRequest = .ok ())
    (hr : env.getThingShadow ("smartband_" ++ d) = .error e) :
    createDataRequestHandler intentName dataField successMessage s env =
      ⟨s, .returned failed,
        [.updateThingShadow ("smartband_" ++ d) dataRequest, .setTimeout 3000,
          .getThingShadow ("smartband_" ++ d),
          .consoleError ("Error en " ++ intentName ++ ":") e]⟩ := by
  simp only [dataRequest] at hw
  simp [createDataRequestHandler, hg, hd, jsonStringifyValue, hw, hr, failed, dataRequest]

theorem dataRequest_no_reported (intentName dataField successMessage : String) (s : Session)
    (env : Env) (d : String) (shadow : Shadow)
    (hg : validateUserAndThing s true = none) (hd : s.selectedThing = some d)
    (hw : env.updateThingShadow ("smartband_" ++ d) dataRequest = .ok ())
    (hr : env.getThingShadow ("smartband_" ++ d) = .ok shadow)
    (hs : (shadow.state.bind fun state => state.reported) = none) :
    createDataRequestHandler intentName dataField successMessage s env =
      ⟨s, .returned failed,
        [.updateThingShadow ("smartband_" ++ d) dataRequest, .setTimeout 3000,
          .getThingShadow ("smartband_" ++ d),
          .consoleError ("Error en " ++ intentName ++ ":") "TypeError"]⟩ := by
  simp only [dataRequest] at hw
  simp only [createDataRequestHandler, hg, hd, jsonStringifyValue, hw, hr, hs, failed, dataRequest,
    Option.getD_some]

theorem dataRequest_reported (intentName dataField successMessage : String) (s : Session)
    (env : Env) (d : String) (shadow : Shadow) (reported : List (String × JsVal))
    (hg : validateUserAndThing s true = none) (hd : s.selectedThing = some d)
    (hw : env.updateThingShadow ("smartband_" ++ d) dataRequest = .ok ())
    (hr : env.getThingShadow ("smartband_" ++ d) = .ok shadow)
    (hs : (shadow.state.bind fun state => state.reported) = some reported) :
    createDataRequestHandler intentName dataField successMessage s env =
      ⟨s,
        .returned (if ((reported.lookup dataField).getD .undefined).truthy
          then fieldValue successMessage ((reported.lookup dataField).getD .undefined)
          else fieldUnavailable dataField),
        [.updateThingShadow ("smartband_" ++ d) dataRequest, .setTimeout 3000,
          .getThingShadow ("smartband_" ++ d)]⟩ := by
  simp only [dataRequest] at hw
  simp only [createDataRequestHandler, hg, hd, jsonStringifyValue, hw, hr, hs, dataRequest,
    Option.getD_some, fieldValue, fieldUnavailable]
  split <;> rfl

theorem gate_selected (s : Session) (hg : validateUserAndThing s true = none) :
    ∃ d, s.selectedThing = some d := by
  have h := ((gate_pass_iff s true).1 hg).2 rfl
  cases hd : s.selectedThing with
  | none => rw [hd] at h; simp [truthy] at h
  | some d => exact ⟨d, rfl⟩

theorem fieldUnavailable_ne_failed (dataField : String) : fieldUnavailable dataField ≠ failed := by
  apply buildResponse_ne
  exact ne_of_head _ _ 'N' 'H' (head_append _ _ _ (head_append _ _ _ rfl)) rfl (by decide)

theorem dataRequest_present (intentName dataField successMessage : String) (s : Session)
    (env : Env) (d : String) (reported : List (String × JsVal)) (v : JsVal)
    (hg : validateUserAndThing s true = none) (hd : s.selectedThing = some d)
    (hw : env.updateThingShadow ("smartband_" ++ d) dataRequest = .ok ())
    (hr : env.getThingShadow ("smartband_" ++ d) = .ok ⟨some ⟨some reported⟩⟩)
    (hv : reported.lookup dataField = some v) :
    (createDataRequestHandler intentName dataField successMessage s env).completion =
      .returned (if v.truthy then fieldValue successMessage v else fieldUnavailable dataField) := by
  rw [dataRequest_reported intentName dataField successMessage s env d _ reported hg hd hw hr rfl,
    hv]
  rfl

/-- C5: with the gate passed and both store calls successful, a reported
`heart_rate` of 72 is spoken as `El pulso es: 72.`, but a reported value that
is present, not `null` and falsy (0 steps, an empty `activity_type`, a
`heart_rate` of `false`) is answered with `FieldUnavailable` and not with the
success text followed by the value. -/
theorem dataRequest_falsy_value_unavailable :
    (CheckHeartbeatIntentHandler.handle ⟨some "alice", some "SN-001"⟩
        (reportingEnv [("heart_rate", .num 72)])).completion =
      .returned (buildResponse "El pulso es: 72.") ∧
    (CheckStepsIntentHandler.handle ⟨some "alice", some "SN-001"⟩
        (reportingEnv [("steps", .num 0)])).completion =
      .returned (fieldUnavailable "steps") ∧
    (CheckStepsIntentHandler.handle ⟨some "alice", some "SN-001"⟩
        (reportingEnv [("steps", .num 0)])).completion ≠
      .returned (fieldValue "El número de pasos es" (.num 0)) ∧
    (CheckActivityIntentHandler.handle ⟨some "alice", some "SN-001"⟩
        (reportingEnv [("activity_type", .str "")])).completion =
      .returned (fieldUnavailable "activity_type") ∧
    (CheckHeartbeatIntentHandler.handle ⟨some "alice", some "SN-001"⟩
        (reportingEnv [("heart_rate", .bool false)])).completion =
      .returned (fieldUnavailable "heart_rate") := by
  decide

theorem dataRequest_soft_miss_or_failed (intentName dataField successMessage : String)
    (s : Session) (env : Env) (d : String)
    (hg : validateUserAndThing s true = none) (hd : s.selectedThing = some d) :
    (∀ reported, env.updateThingShadow ("smartband_" ++ d) dataRequest = .ok () →
      env.getThingShadow ("smartband_" ++ d) = .ok ⟨some ⟨some reported⟩⟩ →
      reported.lookup dataField = none →
      (createDataRequestHandler intentName dataField successMessage s env).completion =
        .returned (fieldUnavailable dataField)) ∧
    (∀ e, env.updateThingShadow ("smartband_" ++ d) dataRequest = .error e →
      (createDataRequestHandler intentName dataField successMessage s env).completion =
        .returned failed) ∧
    (∀ e, env.updateThingShadow ("smartband_" ++ d) dataRequest = .ok () →
      env.getThingShadow ("smartband_" ++ d) = .error e →
      (createDataRequestHandler intentName dataField successMessage s env).completion =
        .returned failed) ∧
    fieldUnavailable dataField ≠ failed := by
  refine ⟨fun reported hw hr hv => ?_, fun e hw => ?_, fun e hw hr => ?_,
    fieldUnavailable_ne_failed dataField⟩
  · rw [dataRequest_reported intentName dataField successMessage s env d _ reported hg hd hw hr
      rfl, hv]
    rfl
  · rw [dataRequest_write_error intentName dataField successMessage s env d e hg hd hw]
  · rw [dataRequest_read_error intentName dataField successMessage s env d e hg hd hw hr]

/-- C6: with the gate passed and both store calls successful, a heart-rate
read of a shadow that has no `reported` section, as for a device that has not
reported yet, throws inside the `try` and is answered with `Failed`, not with
`FieldUnavailable`.  A read of a reported document that has other keys only is
answered with `FieldUnavailable`, and a read whose store call fails with
`Failed`. -/
theorem dataRequest_unreported_failed :
    CheckHeartbeatIntentHandler.handle ⟨some "alice", some "SN-001"⟩ unreportedEnv =
      ⟨⟨some "alice", some "SN-001"⟩, .returned failed,
        [.updateThingShadow "smartband_SN-001" dataRequest, .setTimeout 3000,
          .getThingShadow "smartband_SN-001",
          .consoleError "Error en CheckHeartbeatIntent:" "TypeError"]⟩ ∧
    (CheckHeartbeatIntentHandler.handle ⟨some "alice", some "SN-001"⟩ unreportedEnv).completion ≠
      .returned (fieldUnavailable "heart_rate") ∧
    (CheckHeartbeatIntentHandler.handle ⟨some "alice", some "SN-001"⟩
        (reportingEnv [("steps", .num 10)])).completion =
      .returned (fieldUnavailable "heart_rate") ∧
    (CheckHeartbeatIntentHandler.handle ⟨some "alice", some "SN-001"⟩ failingEnv).completion =
      .returned failed := by
  decide

/-- C9: a read that the gate rejects makes no outside call.  A read that the
gate lets through, in a session bound to the device `d`, first writes
`dataRequest`, that is `data_requested: 1`, to the key `smartband_` followed
by `d`; when that write fails it only logs the error; when it succeeds the
read waits 3000 ms once, reads the shadow of the same key once, and after
that at most logs an error. -/
theorem dataRequest_effects (intentName dataField successMessage : String)
    (s : Session) (env : Env) :
    (∀ r, validateUserAndThing s true = some r →
      (createDataRequestHandler intentName dataField successMessage s env).effects = []) ∧
    (∀ d, validateUserAndThing s true = none → s.selectedThing = some d →
      (∀ e, env.updateThingShadow ("smartband_" ++ d) dataRequest = .error e →
        (createDataRequestHandler intentName dataField successMessage s env).effects =
          [.updateThingShadow ("smartband_" ++ d) dataRequest,
            .consoleError ("Error en " ++ intentName ++ ":") e]) ∧
      (env.updateThingShadow ("smartband_" ++ d) dataRequest = .ok () →
        ∃ log, (createDataRequestHandler intentName dataField successMessage s env).effects =
            [.updateThingShadow ("smartband_" ++ d) dataRequest, .setTimeout 3000,
              .getThingShadow ("smartband_" ++ d)] ++ log ∧
          (log = [] ∨ ∃ e, log = [.consoleError ("Error en " ++ intentName ++ ":") e]))) := by
  refine ⟨fun r hg => ?_, fun d hg hd => ⟨fun e hw => ?_, fun hw => ?_⟩⟩
  · rw [dataRequest_rejected intentName dataField successMessage s env r hg]
  · rw [dataRequest_write_error intentName dataField successMessage s env d e hg hd hw]
  · cases hr : env.getThingShadow ("smartband_" ++ d) with
    | error e =>
      rw [dataRequest_read_error intentName dataField successMessage s env d e hg hd hw hr]
      exact ⟨[.consoleError ("Error en " ++ intentName ++ ":") e], rfl, Or.inr ⟨e, rfl⟩⟩
    | ok shadow =>
      cases hs : shadow.state.bind fun state => state.reported with
      | none =>
        rw [dataRequest_no_reported intentName dataField successMessage s env d shadow hg hd hw
          hr hs]
        exact ⟨[.consoleError ("Error en " ++ intentName ++ ":") "TypeError"], rfl,
          Or.inr ⟨"TypeError", rfl⟩⟩
      | some reported =>
        rw [dataRequest_reported intentName dataField successMessage s env d shadow reported hg
          hd hw hr hs]
        exact ⟨[], rfl, Or.inl rfl⟩

/-- C9, for a heart-rate read before any identification, for one whose write
fails, and for one whose calls succeed. -/
theorem dataRequest_effects_witness :
    (CheckHeartbeatIntentHandler.handle initialSession sampleEnv).effects = [] ∧
    (CheckHeartbeatIntentHandler.handle ⟨some "alice", some "SN-001"⟩ failingEnv).effects =
      [.updateThingShadow "smartband_SN-001" dataRequest,
        .consoleError "Error en CheckHeartbeatIntent:" "ServiceUnavailable"] ∧
    ∃ log, (CheckHeartbeatIntentHandler.handle ⟨some "alice", some "SN-001"⟩ sampleEnv).effects =
        [.updateThingShadow "smartband_SN-001" dataRequest, .setTimeout 3000,
          .getThingShadow "smartband_SN-001"] ++ log ∧
      (log = [] ∨ ∃ e, log = [.consoleError "Error en CheckHeartbeatIntent:" e]) :=
  ⟨(dataRequest_effects "CheckHeartbeatIntent" "heart_rate" "El pulso es" initialSession
      sampleEnv).1 noIdentity (by decide),
    ((dataRequest_effects "CheckHeartbeatIntent" "heart_rate" "El pulso es"
      ⟨some "alice", some "SN-001"⟩ failingEnv).2 "SN-001" (by decide) rfl).1
      "ServiceUnavailable" rfl,
    ((dataRequest_effects "CheckHeartbeatIntent" "heart_rate" "El pulso es"
      ⟨some "alice", some "SN-001"⟩ sampleEnv).2 "SN-001" (by decide) rfl).2 rfl⟩

/-! ## Threshold writes -/

/-- C7, as the code has it: with the gate passed, in a session bound to the
device `d`, each threshold handler makes exactly one store write for every
slot value, well-formed integer or not: it writes the result of `parseInt`
(`null` in place of `NaN` or of an infinity) under `min_pulse_alert`,
respectively `max_pulse_alert`, to the key `smartband_` followed by `d`.
When the store accepts the write the answer is the success text repeating the
slot value; when the store fails the error is logged and the answer is
`Failed`.  No slot value is rejected before the write. -/
theorem changeThreshold_always_writes (js : Builtins) (s : Session) (env : Env) (d : String)
    (value : String)
    (hg : validateUserAndThing s true = none) (hd : s.selectedThing = some d) :
    (env.updateThingShadow ("smartband_" ++ d)
        ⟨"min_pulse_alert", jsonStringifyValue (js.parseInt value)⟩ = .ok () →
      ChangeMinHeartbeatIntentHandler.handle js s env value =
        ⟨s, .returned (minThresholdSet value),
          [.updateThingShadow ("smartband_" ++ d)
            ⟨"min_pulse_alert", jsonStringifyValue (js.parseInt value)⟩]⟩) ∧
    (∀ e, env.updateThingShadow ("smartband_" ++ d)
        ⟨"min_pulse_alert", jsonStringifyValue (js.parseInt value)⟩ = .error e →
      ChangeMinHeartbeatIntentHandler.handle js s env value =
        ⟨s, .returned minThresholdFailed,
          [.updateThingShadow ("smartband_" ++ d)
            ⟨"min_pulse_alert", jsonStringifyValue (js.parseInt value)⟩,
            .consoleError "Error en ChangeMinHeartbeatIntent:" e]⟩) ∧
    (env.updateThingShadow ("smartband_" ++ d)
        ⟨"max_pulse_alert", jsonStringifyValue (js.parseInt value)⟩ = .ok () →
      ChangeMaxHeartbeatIntentHandler.handle js s env value =
        ⟨s, .returned (maxThresholdSet value),
          [.updateThingShadow ("smartband_" ++ d)
            ⟨"max_pulse_alert", jsonStringifyValue (js.parseInt value)⟩]⟩) ∧
    (∀ e, env.updateThingShadow ("smartband_" ++ d)
        ⟨"max_pulse_alert", jsonStringifyValue (js.parseInt value)⟩ = .error e →
      ChangeMaxHeartbeatIntentHandler.handle js s env value =
        ⟨s, .returned maxThresholdFailed,
          [.updateThingShadow ("smartband_" ++ d)
            ⟨"max_pulse_alert", jsonStringifyValue (js.parseInt value)⟩,
            .consoleError "Error en ChangeMaxHeartbeatIntent:" e]⟩) ∧
    (js.parseInt value = .nan → jsonStringifyValue (js.parseInt value) = .null) ∧
    (∀ negative, js.parseInt value = .infinity negative →
      jsonStringifyValue (js.parseInt value) = .null) ∧
    (∀ n, js.parseInt value = .num n → jsonStringifyValue (js.parseInt value) = .num n) := by
  refine ⟨fun hw => ?_, fun e hw => ?_, fun hw => ?_, fun e hw => ?_,
    fun h => by rw [h]; rfl, fun negative h => by rw [h]; rfl, fun n h => by rw [h]; rfl⟩
  · simp only [ChangeMinHeartbeatIntentHandler.handle, hg, hd, Option.getD_some, hw,
      minThresholdSet]
  · simp only [ChangeMinHeartbeatIntentHandler.handle, hg, hd, Option.getD_some, hw,
      minThresholdFailed]
  · simp only [ChangeMaxHeartbeatIntentHandler.handle, hg, hd, Option.getD_some, hw,
      maxThresholdSet]
  · simp only [ChangeMaxHeartbeatIntentHandler.handle, hg, hd, Option.getD_some, hw,
      maxThresholdFailed]

/-- C7, as the code has it, for the slot value `12abc` on both handlers and
for `abc`, where `parseInt` gives `NaN`. -/
theorem changeThreshold_always_writes_witness :
    ChangeMinHeartbeatIntentHandler.handle sampleBuiltins ⟨some "alice", some "SN-001"⟩ sampleEnv
        "12abc" =
      ⟨⟨some "alice", some "SN-001"⟩, .returned (minThresholdSet "12abc"),
        [.updateThingShadow ("smartband_" ++ "SN-001")
          ⟨"min_pulse_alert", jsonStringifyValue (sampleBuiltins.parseInt "12abc")⟩]⟩ ∧
    ChangeMaxHeartbeatIntentHandler.handle sampleBuiltins ⟨some "alice", some "SN-001"⟩ failingEnv
        "12abc" =
      ⟨⟨some "alice", some "SN-001"⟩, .returned maxThresholdFailed,
        [.updateThingShadow ("smartband_" ++ "SN-001")
          ⟨"max_pulse_alert", jsonStringifyValue (sampleBuiltins.parseInt "12abc")⟩,
          .consoleError "Error en ChangeMaxHeartbeatIntent:" "ServiceUnavailable"]⟩ ∧
    jsonStringifyValue (sampleBuiltins.parseInt "abc") = .null :=
  ⟨(changeThreshold_always_writes sampleBuiltins ⟨some "alice", some "SN-001"⟩ sampleEnv "SN-001"
      "12abc" (by decide) rfl).1 rfl,
    (changeThreshold_always_writes sampleBuiltins ⟨some "alice", some "SN-001"⟩ failingEnv
      "SN-001" "12abc" (by decide) rfl).2.2.2.1 "ServiceUnavailable" rfl,
    (changeThreshold_always_writes sampleBuiltins ⟨some "alice", some "SN-001"⟩ sampleEnv "SN-001"
      "abc" (by decide) rfl).2.2.2.2.1 (by decide)⟩

/-- C7 fails: `parseInt` finds no digits in `abc` and gives `NaN`, yet with the gate passed
both threshold handlers issue one store write for that slot value, carrying
`null`, and answer with the success text; neither rejects the value. -/
theorem changeThreshold_abc_is_written :
    sampleBuiltins.parseInt "abc" = .nan ∧
    ChangeMaxHeartbeatIntentHandler.handle sampleBuiltins ⟨some "alice", some "SN-001"⟩ sampleEnv "abc" =
      ⟨⟨some "alice", some "SN-001"⟩,
        .returned (buildResponse "El umbral máximo de pulsaciones se ha establecido en abc."),
        [.updateThingShadow "smartband_SN-001" ⟨"max_pulse_alert", .null⟩]⟩ ∧
    ChangeMinHeartbeatIntentHandler.handle sampleBuiltins ⟨some "alice", some "SN-001"⟩ sampleEnv "abc" =
      ⟨⟨some "alice", some "SN-001"⟩,
        .returned (buildResponse "El umbral mínimo de pulsaciones se ha establecido en abc."),
        [.updateThingShadow "smartband_SN-001" ⟨"min_pulse_alert", .null⟩]⟩ ∧
    (ChangeMaxHeartbeatIntentHandler.handle sampleBuiltins ⟨some "alice", some "SN-001"⟩ sampleEnv "abc").effects ≠
      [] := by
  decide

/-! ## Failing calls -/

/-- C8: when the table scan fails, `CaptureUsernameIntentHandler.handle` and
`SelectThingIntentHandler.handle` (here past the gate) end with the error of
the scan and return no response, while a read and the two threshold writes
whose store call fails return their `Failed` response. -/
theorem catalog_failure_escapes (js : Builtins) :
    (CaptureUsernameIntentHandler.handle js initialSession failingEnv "alice").completion =
      .threw "ServiceUnavailable" ∧
    (SelectThingIntentHandler.handle js ⟨some "alice", none⟩ failingEnv "band1").completion =
      .threw "ServiceUnavailable" ∧
    (CheckHeartbeatIntentHandler.handle ⟨some "alice", some "SN-001"⟩ failingEnv).completion =
      .returned failed ∧
    (ChangeMinHeartbeatIntentHandler.handle js ⟨some "alice", some "SN-001"⟩ failingEnv
        "60").completion =
      .returned minThresholdFailed ∧
    (ChangeMaxHeartbeatIntentHandler.handle js ⟨some "alice", some "SN-001"⟩ failingEnv
        "180").completion =
      .returned maxThresholdFailed :=
  ⟨rfl, rfl, rfl, rfl, rfl⟩

end SmartbandSkill
